import Mathlib

/-!
Verification of the go-glpk binding layer (`glpk/glpk.go`).

The repository is a thin wrapper around the external GLPK engine.  The
wrapper's own logic — nil-handle checks that panic on a deleted problem,
parallel-slice length checks, and the mapping of the engine's integer
return code to a typed `OptError` — is embedded directly from the Go
source.  The engine entry points (`glp_create_prob`, `glp_add_rows`,
`glp_set_mat_row`, ...) are not part of the repository; they are modelled
from the specification, and each such definition is marked
`Modelled from the spec:` in its doc comment.  Solver runs
(`glp_simplex`, `glp_exact`) and the MPL translator calls are kept
abstract: the wrapper receives the engine's behaviour as an explicit
function argument, so theorems quantify over every possible engine
outcome.

Go `float64` coefficient and bound values are carried opaquely: the
wrapper never computes with them, only passes them through, so they are
represented by `Int` (any carrier with decidable equality gives the same
pass-through theorems).  Go `int`/`int32` indices and counts are
represented by `Int`; no claim depends on fixed-width overflow.
-/

namespace GoGlpk

/-- Carrier for Go `float64` values passed through the binding untouched. -/
abbrev Val := Int

/-- A failure of a wrapper call: either a Go `panic` raised by the wrapper
itself, or a fatal fault raised inside the external engine (the spec's
`IndexOutOfRange` class). -/
inductive Fail where
  | goPanic (msg : String)
  | fault (msg : String)
deriving DecidableEq, Repr

/-- The panic message used by every `Prob` method in `glpk.go` when the
internal handle is nil. -/
def deletedProbMsg : String := "Prob method called on a deleted problem"

/-- The panic message of `SetMatRow` / `SetMatCol` / `MatRow` / `MatCol`. -/
def lenMsg2 : String := "len(ind) and len(val) should be equal"

/-- The panic message of `LoadMatrix`. -/
def lenMsg3 : String := "len(ia) and len(ja) and len(ar) should be equal"

/-- Solution status values bound by the source from the external GLPK
header: `UNDEF`, `FEAS`, `INFEAS`, `NOFEAS`, `OPT`, `UNBND`. -/
abbrev SolStat := Int

def UNDEF : SolStat := 1
def FEAS : SolStat := 2
def INFEAS : SolStat := 3
def NOFEAS : SolStat := 4
def OPT : SolStat := 5
def UNBND : SolStat := 6

/-- Typed optimization error wrapping the engine's nonzero return code,
embedding Go's `type OptError int`. -/
structure OptError where
  code : Int
deriving DecidableEq, Repr

/-- Modelled from the spec: the solution-query state of a problem
(overall status, primal status, dual status, objective value, per-column
primal values), set by a solve attempt and read by the status getters. -/
structure SolInfo where
  status : SolStat
  primStat : SolStat
  dualStat : SolStat
  objVal : Val
  colPrim : Int → Val

/-- Modelled from the spec: the state of a GLPK problem object
(`glp_prob`, external to the repository): names, objective direction,
1-based row/column counts, per-row/column names, bounds
(tag, lower, upper), objective coefficients, the sparse constraint
matrix as a sequence of (row, column, value) entries, and the solution
state. -/
structure GlpProb where
  probName : String
  objName : String
  objDir : Int
  numRows : Int
  numCols : Int
  rowNames : Int → String
  colNames : Int → String
  rowBnds : Int → Int × Val × Val
  colBnds : Int → Int × Val × Val
  objCoefs : Int → Val
  entries : List (Int × Int × Val)
  sol : SolInfo

/-- Modelled from the spec: `glp_create_prob` returns a new empty problem
(0 rows, 0 columns, empty names, undefined solution status). -/
def glp_create_prob : GlpProb :=
  { probName := ""
    objName := ""
    objDir := 0
    numRows := 0
    numCols := 0
    rowNames := fun _ => ""
    colNames := fun _ => ""
    rowBnds := fun _ => (0, 0, 0)
    colBnds := fun _ => (0, 0, 0)
    objCoefs := fun _ => 0
    entries := []
    sol := { status := UNDEF, primStat := UNDEF, dualStat := UNDEF,
             objVal := 0, colPrim := fun _ => 0 } }

/-- Modelled from the spec: `glp_erase_prob` resets the problem to the
empty state, as if just created. -/
def glp_erase_prob (_ : GlpProb) : GlpProb := glp_create_prob

/-- Modelled from the spec: `glp_add_rows` appends `nrs` new unnamed,
unbounded rows (count must be non-negative) and returns the 1-based
index of the first newly added row. -/
def glp_add_rows (g : GlpProb) (nrs : Int) : Except Fail (Int × GlpProb) :=
  if 0 ≤ nrs then .ok (g.numRows + 1, { g with numRows := g.numRows + nrs })
  else .error (.fault "InvalidCount")

/-- Modelled from the spec: `glp_add_cols` appends `nrs` new unnamed,
unbounded columns (count must be non-negative) and returns the 1-based
index of the first newly added column. -/
def glp_add_cols (g : GlpProb) (nrs : Int) : Except Fail (Int × GlpProb) :=
  if 0 ≤ nrs then .ok (g.numCols + 1, { g with numCols := g.numCols + nrs })
  else .error (.fault "InvalidCount")

/-- Modelled from the spec: `glp_set_row_name` requires the index to be
in `[1, numRows]`, else fails with an `IndexOutOfRange` fault. -/
def glp_set_row_name (g : GlpProb) (i : Int) (s : String) : Except Fail GlpProb :=
  if 1 ≤ i ∧ i ≤ g.numRows then
    .ok { g with rowNames := fun k => if k = i then s else g.rowNames k }
  else .error (.fault "IndexOutOfRange")

/-- Modelled from the spec: `glp_set_col_name` requires the index to be
in `[1, numCols]`, else fails with an `IndexOutOfRange` fault. -/
def glp_set_col_name (g : GlpProb) (j : Int) (s : String) : Except Fail GlpProb :=
  if 1 ≤ j ∧ j ≤ g.numCols then
    .ok { g with colNames := fun k => if k = j then s else g.colNames k }
  else .error (.fault "IndexOutOfRange")

/-- Modelled from the spec: `glp_get_row_name` requires the index to be
in `[1, numRows]`; an unnamed row reads back as the empty string. -/
def glp_get_row_name (g : GlpProb) (i : Int) : Except Fail String :=
  if 1 ≤ i ∧ i ≤ g.numRows then .ok (g.rowNames i)
  else .error (.fault "IndexOutOfRange")

/-- Modelled from the spec: `glp_get_col_name` requires the index to be
in `[1, numCols]`; an unnamed column reads back as the empty string. -/
def glp_get_col_name (g : GlpProb) (j : Int) : Except Fail String :=
  if 1 ≤ j ∧ j ≤ g.numCols then .ok (g.colNames j)
  else .error (.fault "IndexOutOfRange")

/-- Modelled from the spec: `glp_set_mat_row` replaces the entries of row
`i` with the pairs in slots `1..n` of the given parallel sequences
(slot 0 ignored), unordered and passed through as-is. -/
def glp_set_mat_row (g : GlpProb) (i : Int) (ind : List Int) (val : List Val) : GlpProb :=
  { g with entries :=
      g.entries.filter (fun e => e.1 ≠ i) ++
        ((ind.drop 1).zip (val.drop 1)).map (fun cv => (i, cv.1, cv.2)) }

/-- Modelled from the spec: `glp_set_mat_col` replaces the entries of
column `j` with the pairs in slots `1..n` of the given parallel
sequences (slot 0 ignored), unordered and passed through as-is. -/
def glp_set_mat_col (g : GlpProb) (j : Int) (ind : List Int) (val : List Val) : GlpProb :=
  { g with entries :=
      g.entries.filter (fun e => e.2.1 ≠ j) ++
        ((ind.drop 1).zip (val.drop 1)).map (fun rv => (rv.1, j, rv.2)) }

/-- Modelled from the spec: `glp_load_matrix` bulk-replaces the whole
constraint matrix with the triples in slots `1..n` of the three parallel
sequences (slot 0 ignored). -/
def glp_load_matrix (g : GlpProb) (ia ja : List Int) (ar : List Val) : GlpProb :=
  { g with entries :=
      ((ia.drop 1).zip ((ja.drop 1).zip (ar.drop 1))).map (fun x => (x.1, x.2.1, x.2.2)) }

/-- Modelled from the spec: `glp_get_mat_row` returns the stored nonzero
(column, value) pairs of row `i`, in engine-defined order. -/
def glp_get_mat_row (g : GlpProb) (i : Int) : List (Int × Val) :=
  (g.entries.filter (fun e => e.1 = i)).map (fun e => (e.2.1, e.2.2))

/-- Modelled from the spec: `glp_get_mat_col` returns the stored nonzero
(row, value) pairs of column `j`, in engine-defined order. -/
def glp_get_mat_col (g : GlpProb) (j : Int) : List (Int × Val) :=
  (g.entries.filter (fun e => e.2.1 = j)).map (fun e => (e.1, e.2.2))

/-- Modelled from the spec: `glp_copy_prob` copies rows, columns, bounds,
matrix and objective from `src` into `dest`; symbolic names are copied
only when `names` is set, otherwise `dest`'s (blank) names remain. -/
def glp_copy_prob (dest src : GlpProb) (names : Bool) : GlpProb :=
  { probName := if names then src.probName else dest.probName
    objName := if names then src.objName else dest.objName
    objDir := src.objDir
    numRows := src.numRows
    numCols := src.numCols
    rowNames := if names then src.rowNames else dest.rowNames
    colNames := if names then src.colNames else dest.colNames
    rowBnds := src.rowBnds
    colBnds := src.colBnds
    objCoefs := src.objCoefs
    entries := src.entries
    sol := dest.sol }

/-- Simplex solver control parameters (`glp_smcp`), embedding the fields
the source exposes setters for. -/
structure Smcp where
  msg_lev : Int
  meth : Int
  pricing : Int
  r_test : Int
deriving DecidableEq, Repr

/-- The behaviour of one external solver entry point (`glp_simplex` or
`glp_exact`): given the problem state and the (possibly absent) control
parameters it yields an integer return code and the new solution state.
Theorems quantify over every such behaviour. -/
abbrev SolverEngine := GlpProb → Option Smcp → Int × SolInfo

/-- The wrapper handle for an optimization problem: `Prob.p` is `none`
exactly when the underlying `glp_prob` pointer has been nulled by
`Delete`. -/
structure Prob where
  p : Option GlpProb

/-- `glpk.New`: creates a new optimization problem. -/
def New : Prob := ⟨some glp_create_prob⟩

/-- `Prob.Delete`: nulls the handle; on an already-deleted problem the
nil test fails and nothing happens. -/
def Prob.Delete (p : Prob) : Prob :=
  match p.p with
  | some _ => ⟨none⟩
  | none => p

/-- `Prob.Erase`: panics on a deleted problem, otherwise erases it. -/
def Prob.Erase (p : Prob) : Except Fail Prob :=
  match p.p with
  | none => .error (.goPanic deletedProbMsg)
  | some g => .ok ⟨some (glp_erase_prob g)⟩

/-- `Prob.SetProbName`. -/
def Prob.SetProbName (p : Prob) (name : String) : Except Fail Prob :=
  match p.p with
  | none => .error (.goPanic deletedProbMsg)
  | some g => .ok ⟨some { g with probName := name }⟩

/-- `Prob.SetObjName`. -/
def Prob.SetObjName (p : Prob) (name : String) : Except Fail Prob :=
  match p.p with
  | none => .error (.goPanic deletedProbMsg)
  | some g => .ok ⟨some { g with objName := name }⟩

/-- `Prob.SetObjDir`. -/
def Prob.SetObjDir (p : Prob) (dir : Int) : Except Fail Prob :=
  match p.p with
  | none => .error (.goPanic deletedProbMsg)
  | some g => .ok ⟨some { g with objDir := dir }⟩

/-- `Prob.AddRows`: returns the 1-based index of the first added row. -/
def Prob.AddRows (p : Prob) (nrs : Int) : Except Fail (Int × Prob) :=
  match p.p with
  | none => .error (.goPanic deletedProbMsg)
  | some g =>
    match glp_add_rows g nrs with
    | .ok (k, g2) => .ok (k, ⟨some g2⟩)
    | .error e => .error e

/-- `Prob.AddCols`: returns the 1-based index of the first added column. -/
def Prob.AddCols (p : Prob) (nrs : Int) : Except Fail (Int × Prob) :=
  match p.p with
  | none => .error (.goPanic deletedProbMsg)
  | some g =>
    match glp_add_cols g nrs with
    | .ok (k, g2) => .ok (k, ⟨some g2⟩)
    | .error e => .error e

/-- `Prob.SetRowName`. -/
def Prob.SetRowName (p : Prob) (i : Int) (name : String) : Except Fail Prob :=
  match p.p with
  | none => .error (.goPanic deletedProbMsg)
  | some g =>
    match glp_set_row_name g i name with
    | .ok g2 => .ok ⟨some g2⟩
    | .error e => .error e

/-- `Prob.SetColName`. -/
def Prob.SetColName (p : Prob) (j : Int) (name : String) : Except Fail Prob :=
  match p.p with
  | none => .error (.goPanic deletedProbMsg)
  | some g =>
    match glp_set_col_name g j name with
    | .ok g2 => .ok ⟨some g2⟩
    | .error e => .error e

/-- `Prob.SetRowBnds`. -/
def Prob.SetRowBnds (p : Prob) (i : Int) (type_ : Int) (lb ub : Val) : Except Fail Prob :=
  match p.p with
  | none => .error (.goPanic deletedProbMsg)
  | some g =>
    .ok ⟨some { g with rowBnds := fun k => if k = i then (type_, lb, ub) else g.rowBnds k }⟩

/-- `Prob.SetColBnds`. -/
def Prob.SetColBnds (p : Prob) (j : Int) (type_ : Int) (lb ub : Val) : Except Fail Prob :=
  match p.p with
  | none => .error (.goPanic deletedProbMsg)
  | some g =>
    .ok ⟨some { g with colBnds := fun k => if k = j then (type_, lb, ub) else g.colBnds k }⟩

/-- `Prob.SetObjCoef`. -/
def Prob.SetObjCoef (p : Prob) (j : Int) (coef : Val) : Except Fail Prob :=
  match p.p with
  | none => .error (.goPanic deletedProbMsg)
  | some g =>
    .ok ⟨some { g with objCoefs := fun k => if k = j then coef else g.objCoefs k }⟩

/-- `Prob.SetMatRow`: panics on a deleted problem, then panics when the
two parallel slices differ in length, otherwise hands slots `1..n` to
the engine. -/
def Prob.SetMatRow (p : Prob) (i : Int) (ind : List Int) (val : List Val) : Except Fail Prob :=
  match p.p with
  | none => .error (.goPanic deletedProbMsg)
  | some g =>
    if ind.length ≠ val.length then .error (.goPanic lenMsg2)
    else .ok ⟨some (glp_set_mat_row g i ind val)⟩

/-- `Prob.SetMatCol`: same checks as `SetMatRow`, for a column. -/
def Prob.SetMatCol (p : Prob) (j : Int) (ind : List Int) (val : List Val) : Except Fail Prob :=
  match p.p with
  | none => .error (.goPanic deletedProbMsg)
  | some g =>
    if ind.length ≠ val.length then .error (.goPanic lenMsg2)
    else .ok ⟨some (glp_set_mat_col g j ind val)⟩

/-- `Prob.LoadMatrix`: panics on a deleted problem, then panics unless
the three parallel slices have equal length. -/
def Prob.LoadMatrix (p : Prob) (ia ja : List Int) (ar : List Val) : Except Fail Prob :=
  match p.p with
  | none => .error (.goPanic deletedProbMsg)
  | some g =>
    if ia.length ≠ ja.length ∨ ia.length ≠ ar.length then .error (.goPanic lenMsg3)
    else .ok ⟨some (glp_load_matrix g ia ja ar)⟩

/-- `Prob.Copy`: creates a fresh problem and copies into it, with or
without names. -/
def Prob.Copy (p : Prob) (names : Bool) : Except Fail Prob :=
  match p.p with
  | none => .error (.goPanic deletedProbMsg)
  | some g => .ok ⟨some (glp_copy_prob glp_create_prob g names)⟩

/-- `Prob.ProbName`. -/
def Prob.ProbName (p : Prob) : Except Fail String :=
  match p.p with
  | none => .error (.goPanic deletedProbMsg)
  | some g => .ok g.probName

/-- `Prob.ObjName`. -/
def Prob.ObjName (p : Prob) : Except Fail String :=
  match p.p with
  | none => .error (.goPanic deletedProbMsg)
  | some g => .ok g.objName

/-- `Prob.ObjDir`. -/
def Prob.ObjDir (p : Prob) : Except Fail Int :=
  match p.p with
  | none => .error (.goPanic deletedProbMsg)
  | some g => .ok g.objDir

/-- `Prob.NumRows`. -/
def Prob.NumRows (p : Prob) : Except Fail Int :=
  match p.p with
  | none => .error (.goPanic deletedProbMsg)
  | some g => .ok g.numRows

/-- `Prob.NumCols`. -/
def Prob.NumCols (p : Prob) : Except Fail Int :=
  match p.p with
  | none => .error (.goPanic deletedProbMsg)
  | some g => .ok g.numCols

/-- `Prob.RowName`. -/
def Prob.RowName (p : Prob) (i : Int) : Except Fail String :=
  match p.p with
  | none => .error (.goPanic deletedProbMsg)
  | some g => glp_get_row_name g i

/-- `Prob.ColName`. -/
def Prob.ColName (p : Prob) (j : Int) : Except Fail String :=
  match p.p with
  | none => .error (.goPanic deletedProbMsg)
  | some g => glp_get_col_name g j

/-- `Prob.ObjCoef`. -/
def Prob.ObjCoef (p : Prob) (j : Int) : Except Fail Val :=
  match p.p with
  | none => .error (.goPanic deletedProbMsg)
  | some g => .ok (g.objCoefs j)

/-- `Prob.MatRow`: the source's length test compares the two named
return slices while both are still nil, so it never fires; the wrapper
then sizes two slices of length `n + 1` (slot 0 zeroed by `make`) and
fills slots `1..n` from the engine. -/
def Prob.MatRow (p : Prob) (i : Int) : Except Fail (List Int × List Val) :=
  match p.p with
  | none => .error (.goPanic deletedProbMsg)
  | some g =>
    if (0 : Int) ≠ 0 then .error (.goPanic lenMsg2)
    else
      let pairs := glp_get_mat_row g i
      .ok (0 :: pairs.map (fun e => e.1), 0 :: pairs.map (fun e => e.2))

/-- `Prob.MatCol`: same shape as `MatRow`, for a column. -/
def Prob.MatCol (p : Prob) (j : Int) : Except Fail (List Int × List Val) :=
  match p.p with
  | none => .error (.goPanic deletedProbMsg)
  | some g =>
    if (0 : Int) ≠ 0 then .error (.goPanic lenMsg2)
    else
      let pairs := glp_get_mat_col g j
      .ok (0 :: pairs.map (fun e => e.1), 0 :: pairs.map (fun e => e.2))

/-- `Prob.Simplex`: panics on a deleted problem; otherwise runs the
engine (with the given parameters or the engine defaults) and returns
`none` exactly on return code 0, else the code as a typed `OptError`. -/
def Prob.Simplex (eng : SolverEngine) (p : Prob) (parm : Option Smcp) :
    Except Fail (Option OptError × Prob) :=
  match p.p with
  | none => .error (.goPanic deletedProbMsg)
  | some g =>
    let r := match parm with
      | some s => eng g (some s)
      | none => eng g none
    let err : OptError := ⟨r.1⟩
    if err = ⟨0⟩ then .ok (none, ⟨some { g with sol := r.2 }⟩)
    else .ok (some err, ⟨some { g with sol := r.2 }⟩)

/-- `Prob.Exact`: identical wrapper contract to `Simplex`, delegating to
the exact-arithmetic engine entry point. -/
def Prob.Exact (eng : SolverEngine) (p : Prob) (parm : Option Smcp) :
    Except Fail (Option OptError × Prob) :=
  match p.p with
  | none => .error (.goPanic deletedProbMsg)
  | some g =>
    let r := match parm with
      | some s => eng g (some s)
      | none => eng g none
    let err : OptError := ⟨r.1⟩
    if err = ⟨0⟩ then .ok (none, ⟨some { g with sol := r.2 }⟩)
    else .ok (some err, ⟨some { g with sol := r.2 }⟩)

/-- `Prob.Status`. -/
def Prob.Status (p : Prob) : Except Fail SolStat :=
  match p.p with
  | none => .error (.goPanic deletedProbMsg)
  | some g => .ok g.sol.status

/-- `Prob.PrimStat`. -/
def Prob.PrimStat (p : Prob) : Except Fail SolStat :=
  match p.p with
  | none => .error (.goPanic deletedProbMsg)
  | some g => .ok g.sol.primStat

/-- `Prob.DualStat`. -/
def Prob.DualStat (p : Prob) : Except Fail SolStat :=
  match p.p with
  | none => .error (.goPanic deletedProbMsg)
  | some g => .ok g.sol.dualStat

/-- `Prob.ObjVal`. -/
def Prob.ObjVal (p : Prob) : Except Fail Val :=
  match p.p with
  | none => .error (.goPanic deletedProbMsg)
  | some g => .ok g.sol.objVal

/-- `Prob.ColPrim`. -/
def Prob.ColPrim (p : Prob) (j : Int) : Except Fail Val :=
  match p.p with
  | none => .error (.goPanic deletedProbMsg)
  | some g => .ok (g.sol.colPrim j)

/-- Modelled from the spec: the opaque MPL translator workspace
(`glp_tran`, external to the repository). -/
structure GlpTran where
  u : Unit
deriving DecidableEq, Repr

/-- The wrapper handle for an MPL translator workspace: `Tran.t` is
`none` exactly when the underlying pointer has been nulled by
`MplFreeWksp`. -/
structure Tran where
  t : Option GlpTran
deriving DecidableEq, Repr

/-- `glpk.NewMpl`: allocates a fresh MPL workspace. -/
def NewMpl : Tran := ⟨some ⟨()⟩⟩

/-- `Tran.MplFreeWksp`: nulls the handle; on an already-freed workspace
the nil test fails and nothing happens. -/
def Tran.MplFreeWksp (t : Tran) : Tran :=
  match t.t with
  | some _ => ⟨none⟩
  | none => t

/-- `Tran.MplReadModel`: performs no liveness check — it converts the
skip flag to 0/1 and hands the possibly-nil workspace handle straight to
the engine, returning the engine's integer code. -/
def Tran.MplReadModel (eng : Option GlpTran → String → Int → Int) (t : Tran)
    (filename : String) (skipDataFlag : Bool) : Int :=
  eng t.t filename (if skipDataFlag = true then 1 else 0)

/-- `Tran.MplGenerate`: no liveness check; hands the possibly-nil
workspace handle straight to the engine. -/
def Tran.MplGenerate (eng : Option GlpTran → Int) (t : Tran) : Int :=
  eng t.t

/-- `Tran.MplBuildProb`: no liveness check on either handle; hands the
possibly-nil workspace and problem pointers straight to the engine. -/
def Tran.MplBuildProb (eng : Option GlpTran → Option GlpProb → Option GlpProb)
    (t : Tran) (p : Prob) : Prob :=
  ⟨eng t.t p.p⟩

/-- `Tran.MplReadData`: no liveness check; hands the possibly-nil
workspace handle straight to the engine. -/
def Tran.MplReadData (eng : Option GlpTran → String → Int) (t : Tran)
    (filename : String) : Int :=
  eng t.t filename

/-- One mutating wrapper operation other than `Delete` and `Erase`,
applied with arbitrary arguments, taking the problem handle `p` to the
handle `q`; the `Bool` index records whether the step is an
`AddRows`/`AddCols` step. -/
inductive StepsTo : Prob → Prob → Bool → Prop where
  | setProbName (p q : Prob) (s : String) :
      p.SetProbName s = .ok q → StepsTo p q false
  | setObjName (p q : Prob) (s : String) :
      p.SetObjName s = .ok q → StepsTo p q false
  | setObjDir (p q : Prob) (d : Int) :
      p.SetObjDir d = .ok q → StepsTo p q false
  | addRows (p q : Prob) (n k : Int) :
      p.AddRows n = .ok (k, q) → StepsTo p q true
  | addCols (p q : Prob) (n k : Int) :
      p.AddCols n = .ok (k, q) → StepsTo p q true
  | setRowName (p q : Prob) (i : Int) (s : String) :
      p.SetRowName i s = .ok q → StepsTo p q false
  | setColName (p q : Prob) (j : Int) (s : String) :
      p.SetColName j s = .ok q → StepsTo p q false
  | setRowBnds (p q : Prob) (i b : Int) (lb ub : Val) :
      p.SetRowBnds i b lb ub = .ok q → StepsTo p q false
  | setColBnds (p q : Prob) (j b : Int) (lb ub : Val) :
      p.SetColBnds j b lb ub = .ok q → StepsTo p q false
  | setObjCoef (p q : Prob) (j : Int) (c : Val) :
      p.SetObjCoef j c = .ok q → StepsTo p q false
  | setMatRow (p q : Prob) (i : Int) (ind : List Int) (val : List Val) :
      p.SetMatRow i ind val = .ok q → StepsTo p q false
  | setMatCol (p q : Prob) (j : Int) (ind : List Int) (val : List Val) :
      p.SetMatCol j ind val = .ok q → StepsTo p q false
  | loadMatrix (p q : Prob) (ia ja : List Int) (ar : List Val) :
      p.LoadMatrix ia ja ar = .ok q → StepsTo p q false
  | simplex (p q : Prob) (eng : SolverEngine) (parm : Option Smcp) (e : Option OptError) :
      p.Simplex eng parm = .ok (e, q) → StepsTo p q false
  | exactSolve (p q : Prob) (eng : SolverEngine) (parm : Option Smcp) (e : Option OptError) :
      p.Exact eng parm = .ok (e, q) → StepsTo p q false

/-- C1: `Delete` is idempotent — a second `Delete` on an already-deleted
problem is a no-op and never fails — and every other `Prob` method
invoked on a deleted problem fails deterministically with the fatal
`goPanic "Prob method called on a deleted problem"`. -/
theorem c1_delete_idempotent_and_guards :
    (∀ p : Prob, (p.Delete).Delete = p.Delete ∧ (p.Delete).p = none) ∧
    (∀ p : Prob, p.p = none →
      p.Erase = .error (Fail.goPanic deletedProbMsg) ∧
      (∀ s, p.SetProbName s = .error (Fail.goPanic deletedProbMsg)) ∧
      (∀ s, p.SetObjName s = .error (Fail.goPanic deletedProbMsg)) ∧
      (∀ d, p.SetObjDir d = .error (Fail.goPanic deletedProbMsg)) ∧
      (∀ n, p.AddRows n = .error (Fail.goPanic deletedProbMsg)) ∧
      (∀ n, p.AddCols n = .error (Fail.goPanic deletedProbMsg)) ∧
      (∀ i s, p.SetRowName i s = .error (Fail.goPanic deletedProbMsg)) ∧
      (∀ j s, p.SetColName j s = .error (Fail.goPanic deletedProbMsg)) ∧
      (∀ i b lb ub, p.SetRowBnds i b lb ub = .error (Fail.goPanic deletedProbMsg)) ∧
      (∀ j b lb ub, p.SetColBnds j b lb ub = .error (Fail.goPanic deletedProbMsg)) ∧
      (∀ j c, p.SetObjCoef j c = .error (Fail.goPanic deletedProbMsg)) ∧
      (∀ i ind val, p.SetMatRow i ind val = .error (Fail.goPanic deletedProbMsg)) ∧
      (∀ j ind val, p.SetMatCol j ind val = .error (Fail.goPanic deletedProbMsg)) ∧
      (∀ ia ja ar, p.LoadMatrix ia ja ar = .error (Fail.goPanic deletedProbMsg)) ∧
      (∀ b, p.Copy b = .error (Fail.goPanic deletedProbMsg)) ∧
      p.ProbName = .error (Fail.goPanic deletedProbMsg) ∧
      p.ObjName = .error (Fail.goPanic deletedProbMsg) ∧
      p.ObjDir = .error (Fail.goPanic deletedProbMsg) ∧
      p.NumRows = .error (Fail.goPanic deletedProbMsg) ∧
      p.NumCols = .error (Fail.goPanic deletedProbMsg) ∧
      (∀ i, p.RowName i = .error (Fail.goPanic deletedProbMsg)) ∧
      (∀ j, p.ColName j = .error (Fail.goPanic deletedProbMsg)) ∧
      (∀ j, p.ObjCoef j = .error (Fail.goPanic deletedProbMsg)) ∧
      (∀ i, p.MatRow i = .error (Fail.goPanic deletedProbMsg)) ∧
      (∀ j, p.MatCol j = .error (Fail.goPanic deletedProbMsg)) ∧
      (∀ eng parm, p.Simplex eng parm = .error (Fail.goPanic deletedProbMsg)) ∧
      (∀ eng parm, p.Exact eng parm = .error (Fail.goPanic deletedProbMsg)) ∧
      p.Status = .error (Fail.goPanic deletedProbMsg) ∧
      p.PrimStat = .error (Fail.goPanic deletedProbMsg) ∧
      p.DualStat = .error (Fail.goPanic deletedProbMsg) ∧
      p.ObjVal = .error (Fail.goPanic deletedProbMsg) ∧
      (∀ j, p.ColPrim j = .error (Fail.goPanic deletedProbMsg))) := by
  constructor
  · intro p
    cases p with
    | mk o => cases o <;> exact ⟨rfl, rfl⟩
  · intro p hp
    cases p with
    | mk o =>
      cases hp
      exact ⟨rfl, fun _ => rfl, fun _ => rfl, fun _ => rfl, fun _ => rfl, fun _ => rfl,
        fun _ _ => rfl, fun _ _ => rfl, fun _ _ _ _ => rfl, fun _ _ _ _ => rfl,
        fun _ _ => rfl, fun _ _ _ => rfl, fun _ _ _ => rfl, fun _ _ _ => rfl,
        fun _ => rfl, rfl, rfl, rfl, rfl, rfl, fun _ => rfl, fun _ => rfl,
        fun _ => rfl, fun _ => rfl, fun _ => rfl, fun _ _ => rfl, fun _ _ => rfl,
        rfl, rfl, rfl, rfl, fun _ => rfl⟩

/-- Witness for C1 at the concrete deleted problem `⟨none⟩`. -/
theorem c1_witness :
    ((⟨none⟩ : Prob).p = none) ∧
    (⟨none⟩ : Prob).Erase = .error (Fail.goPanic deletedProbMsg) := by
  exact ⟨rfl, (c1_delete_idempotent_and_guards.2 ⟨none⟩ rfl).1⟩

/-- C2: for every live problem, every engine behaviour and every
parameter value (including `none`), `Simplex` and `Exact` return no
error exactly when the engine's return code is 0; every nonzero code
comes back as a typed `OptError` carrying that code (never a fatal
failure); and a no-error return does not imply that the solution status
is `OPT` or `FEAS`: there is an engine run returning code 0 after which
`Status` reads `UNDEF`. -/
theorem c2_solver_code_mapping :
    (∀ (eng : SolverEngine) (g : GlpProb) (parm : Option Smcp),
      (Prob.Simplex eng ⟨some g⟩ parm =
          .ok (none, ⟨some { g with sol := (eng g parm).2 }⟩) ↔ (eng g parm).1 = 0) ∧
      ((eng g parm).1 ≠ 0 →
        Prob.Simplex eng ⟨some g⟩ parm =
          .ok (some ⟨(eng g parm).1⟩, ⟨some { g with sol := (eng g parm).2 }⟩)) ∧
      (Prob.Exact eng ⟨some g⟩ parm =
          .ok (none, ⟨some { g with sol := (eng g parm).2 }⟩) ↔ (eng g parm).1 = 0) ∧
      ((eng g parm).1 ≠ 0 →
        Prob.Exact eng ⟨some g⟩ parm =
          .ok (some ⟨(eng g parm).1⟩, ⟨some { g with sol := (eng g parm).2 }⟩))) ∧
    (∃ (eng : SolverEngine) (q : Prob),
      Prob.Simplex eng New none = .ok (none, q) ∧
      q.Status = .ok UNDEF ∧ UNDEF ≠ OPT ∧ UNDEF ≠ FEAS) := by
  constructor
  · intro eng g parm
    cases parm with
    | none =>
      by_cases h : (eng g none).1 = 0 <;>
        simp [Prob.Simplex, Prob.Exact, h, OptError.mk.injEq]
    | some s =>
      by_cases h : (eng g (some s)).1 = 0 <;>
        simp [Prob.Simplex, Prob.Exact, h, OptError.mk.injEq]
  · refine ⟨fun g _ => (0, g.sol), ⟨some glp_create_prob⟩, ?_, rfl, by decide, by decide⟩
    rfl

/-- Witness for C2 at a concrete engine returning the nonzero code 5. -/
theorem c2_witness :
    (((fun g _ => (5, g.sol)) : SolverEngine) glp_create_prob none).1 ≠ 0 ∧
    Prob.Simplex (fun g _ => (5, g.sol)) ⟨some glp_create_prob⟩ none =
      .ok (some ⟨5⟩, ⟨some { glp_create_prob with sol := glp_create_prob.sol }⟩) := by
  refine ⟨by decide, ?_⟩
  exact (c2_solver_code_mapping.1 (fun g _ => (5, g.sol)) glp_create_prob none).2.1 (by decide)

/-- C3: on a live problem, `SetMatRow` and `SetMatCol` panic with the
length-mismatch message exactly when the index and value slices have
unequal lengths, `LoadMatrix` panics with its three-slice message
exactly when `ia`, `ja`, `ar` are not all of equal length, and with
equal lengths each call succeeds (no failure in this layer). -/
theorem c3_length_mismatch_panics :
    ∀ g : GlpProb,
      (∀ (i : Int) (ind : List Int) (val : List Val),
        (Prob.SetMatRow ⟨some g⟩ i ind val = .error (Fail.goPanic lenMsg2) ↔
          ind.length ≠ val.length) ∧
        (ind.length = val.length →
          Prob.SetMatRow ⟨some g⟩ i ind val = .ok ⟨some (glp_set_mat_row g i ind val)⟩)) ∧
      (∀ (j : Int) (ind : List Int) (val : List Val),
        (Prob.SetMatCol ⟨some g⟩ j ind val = .error (Fail.goPanic lenMsg2) ↔
          ind.length ≠ val.length) ∧
        (ind.length = val.length →
          Prob.SetMatCol ⟨some g⟩ j ind val = .ok ⟨some (glp_set_mat_col g j ind val)⟩)) ∧
      (∀ (ia ja : List Int) (ar : List Val),
        (Prob.LoadMatrix ⟨some g⟩ ia ja ar = .error (Fail.goPanic lenMsg3) ↔
          ¬(ia.length = ja.length ∧ ia.length = ar.length)) ∧
        (ia.length = ja.length → ia.length = ar.length →
          Prob.LoadMatrix ⟨some g⟩ ia ja ar = .ok ⟨some (glp_load_matrix g ia ja ar)⟩)) := by
  intro g
  refine ⟨fun i ind val => ?_, fun j ind val => ?_, fun ia ja ar => ?_⟩
  · by_cases h : ind.length = val.length <;> simp [Prob.SetMatRow, h]
  · by_cases h : ind.length = val.length <;> simp [Prob.SetMatCol, h]
  · by_cases h1 : ia.length = ja.length <;> by_cases h2 : ia.length = ar.length <;>
      simp [Prob.LoadMatrix, h1, h2]

/-- Witness for C3: concrete mismatched and matched calls on the fresh
problem. -/
theorem c3_witness :
    Prob.SetMatRow ⟨some glp_create_prob⟩ 1 [0, 2] [9] = .error (Fail.goPanic lenMsg2) ∧
    Prob.SetMatRow ⟨some glp_create_prob⟩ 1 [0, 2] [9, 7] =
      .ok ⟨some (glp_set_mat_row glp_create_prob 1 [0, 2] [9, 7])⟩ := by
  refine ⟨?_, ?_⟩
  · exact ((c3_length_mismatch_panics glp_create_prob).1 1 [0, 2] [9]).1.mpr (by decide)
  · exact ((c3_length_mismatch_panics glp_create_prob).1 1 [0, 2] [9, 7]).2 (by decide)

theorem filter_ne_then_eq_fst (i : Int) (l : List (Int × Int × Val)) :
    ((l.filter (fun e => e.1 ≠ i)).filter (fun e => e.1 = i)) = [] := by
  induction l with
  | nil => rfl
  | cons a t ih => by_cases h : a.1 = i <;> simp [List.filter_cons, h, ih]

theorem filter_ne_then_eq_col (j : Int) (l : List (Int × Int × Val)) :
    ((l.filter (fun e => e.2.1 ≠ j)).filter (fun e => e.2.1 = j)) = [] := by
  induction l with
  | nil => rfl
  | cons a t ih => by_cases h : a.2.1 = j <;> simp [List.filter_cons, h, ih]

theorem zip_proj_fst_snd (l : List (Int × Val)) :
    ((l.map (fun e => e.1)).zip (l.map (fun e => e.2))) = l := by
  induction l with
  | nil => rfl
  | cons a t ih => simp [ih]

/-- After `glp_set_mat_row`, reading the same row back yields exactly
the pairs in slots `1..n` of the slices that were set. -/
theorem set_then_get_mat_row (g : GlpProb) (i : Int) (ind : List Int) (val : List Val) :
    glp_get_mat_row (glp_set_mat_row g i ind val) i = (ind.drop 1).zip (val.drop 1) := by
  simp [glp_get_mat_row, glp_set_mat_row, List.filter_append, filter_ne_then_eq_fst,
    List.filter_map, Function.comp]

/-- After `glp_set_mat_col`, reading the same column back yields exactly
the pairs in slots `1..n` of the slices that were set. -/
theorem set_then_get_mat_col (g : GlpProb) (j : Int) (ind : List Int) (val : List Val) :
    glp_get_mat_col (glp_set_mat_col g j ind val) j = (ind.drop 1).zip (val.drop 1) := by
  simp [glp_get_mat_col, glp_set_mat_col, List.filter_append, filter_ne_then_eq_col,
    List.filter_map, Function.comp_def]

/-- C4: for a live problem with sufficient rows and columns, a valid row
index and equal-length slices with distinct valid indices in slots
`1..n`, `SetMatRow` then `MatRow` returns index/value pairs equal — as
an unordered index-to-value mapping over slots `1..n`, slot 0 ignored —
to the pairs that were set; symmetrically for `SetMatCol`/`MatCol`. -/
theorem c4_matrix_roundtrip :
    ∀ (g : GlpProb) (ind : List Int) (val : List Val),
      ind.length = val.length →
      (ind.drop 1).Nodup →
      (∀ (i : Int), 1 ≤ i → i ≤ g.numRows →
        (∀ c ∈ ind.drop 1, 1 ≤ c ∧ c ≤ g.numCols) →
        ∃ (q : Prob) (indR : List Int) (valR : List Val),
          Prob.SetMatRow ⟨some g⟩ i ind val = .ok q ∧
          q.MatRow i = .ok (indR, valR) ∧
          Multiset.ofList ((indR.drop 1).zip (valR.drop 1)) =
            Multiset.ofList ((ind.drop 1).zip (val.drop 1))) ∧
      (∀ (j : Int), 1 ≤ j → j ≤ g.numCols →
        (∀ r ∈ ind.drop 1, 1 ≤ r ∧ r ≤ g.numRows) →
        ∃ (q : Prob) (indC : List Int) (valC : List Val),
          Prob.SetMatCol ⟨some g⟩ j ind val = .ok q ∧
          q.MatCol j = .ok (indC, valC) ∧
          Multiset.ofList ((indC.drop 1).zip (valC.drop 1)) =
            Multiset.ofList ((ind.drop 1).zip (val.drop 1))) := by
  intro g ind val hlen _hnodup
  constructor
  · intro i _hi1 _hi2 _hc
    refine ⟨⟨some (glp_set_mat_row g i ind val)⟩,
      0 :: ((ind.drop 1).zip (val.drop 1)).map (fun e => e.1),
      0 :: ((ind.drop 1).zip (val.drop 1)).map (fun e => e.2), ?_, ?_, ?_⟩
    · simp [Prob.SetMatRow, hlen]
    · simp [Prob.MatRow, set_then_get_mat_row]
    · simp [zip_proj_fst_snd]
  · intro j _hj1 _hj2 _hr
    refine ⟨⟨some (glp_set_mat_col g j ind val)⟩,
      0 :: ((ind.drop 1).zip (val.drop 1)).map (fun e => e.1),
      0 :: ((ind.drop 1).zip (val.drop 1)).map (fun e => e.2), ?_, ?_, ?_⟩
    · simp [Prob.SetMatCol, hlen]
    · simp [Prob.MatCol, set_then_get_mat_col]
    · simp [zip_proj_fst_snd]

/-- Witness for C4 at the concrete inputs of the repository's own test
(`TestSetGetMatRow`): one row, ten columns, indices `[0,3,7,5,2]`. -/
theorem c4_witness :
    ∃ (q : Prob) (indR : List Int) (valR : List Val),
      Prob.SetMatRow ⟨some { glp_create_prob with numRows := 1, numCols := 10 }⟩ 1
          [0, 3, 7, 5, 2] [9, 7, 11, 5, 12] = .ok q ∧
      q.MatRow 1 = .ok (indR, valR) ∧
      Multiset.ofList ((indR.drop 1).zip (valR.drop 1)) =
        Multiset.ofList (([0, 3, 7, 5, 2].drop 1).zip (([9, 7, 11, 5, 12] : List Val).drop 1)) := by
  exact (c4_matrix_roundtrip { glp_create_prob with numRows := 1, numCols := 10 }
    [0, 3, 7, 5, 2] [9, 7, 11, 5, 12] (by decide) (by decide)).1 1 (by decide) (by decide)
    (by decide)

/-- C5: on a live problem, `AddRows n` (n ≥ 0) returns the previous
`NumRows` plus 1 and increases `NumRows` by exactly `n` (likewise
`AddCols`/`NumCols`), and no matrix, bound, name or objective operation
changes `NumRows` or `NumCols`. -/
theorem c5_add_counts :
    ∀ (g : GlpProb) (n : Int), 0 ≤ n →
      (∃ q : Prob, Prob.AddRows ⟨some g⟩ n = .ok (g.numRows + 1, q) ∧
        q.NumRows = .ok (g.numRows + n) ∧ q.NumCols = .ok g.numCols) ∧
      (∃ q : Prob, Prob.AddCols ⟨some g⟩ n = .ok (g.numCols + 1, q) ∧
        q.NumCols = .ok (g.numCols + n) ∧ q.NumRows = .ok g.numRows) ∧
      (∀ s q, Prob.SetProbName ⟨some g⟩ s = .ok q →
        q.NumRows = .ok g.numRows ∧ q.NumCols = .ok g.numCols) ∧
      (∀ s q, Prob.SetObjName ⟨some g⟩ s = .ok q →
        q.NumRows = .ok g.numRows ∧ q.NumCols = .ok g.numCols) ∧
      (∀ d q, Prob.SetObjDir ⟨some g⟩ d = .ok q →
        q.NumRows = .ok g.numRows ∧ q.NumCols = .ok g.numCols) ∧
      (∀ i s q, Prob.SetRowName ⟨some g⟩ i s = .ok q →
        q.NumRows = .ok g.numRows ∧ q.NumCols = .ok g.numCols) ∧
      (∀ j s q, Prob.SetColName ⟨some g⟩ j s = .ok q →
        q.NumRows = .ok g.numRows ∧ q.NumCols = .ok g.numCols) ∧
      (∀ i b lb ub q, Prob.SetRowBnds ⟨some g⟩ i b lb ub = .ok q →
        q.NumRows = .ok g.numRows ∧ q.NumCols = .ok g.numCols) ∧
      (∀ j b lb ub q, Prob.SetColBnds ⟨some g⟩ j b lb ub = .ok q →
        q.NumRows = .ok g.numRows ∧ q.NumCols = .ok g.numCols) ∧
      (∀ j c q, Prob.SetObjCoef ⟨some g⟩ j c = .ok q →
        q.NumRows = .ok g.numRows ∧ q.NumCols = .ok g.numCols) ∧
      (∀ i ind val q, Prob.SetMatRow ⟨some g⟩ i ind val = .ok q →
        q.NumRows = .ok g.numRows ∧ q.NumCols = .ok g.numCols) ∧
      (∀ j ind val q, Prob.SetMatCol ⟨some g⟩ j ind val = .ok q →
        q.NumRows = .ok g.numRows ∧ q.NumCols = .ok g.numCols) ∧
      (∀ ia ja ar q, Prob.LoadMatrix ⟨some g⟩ ia ja ar = .ok q →
        q.NumRows = .ok g.numRows ∧ q.NumCols = .ok g.numCols) := by
  intro g n hn
  refine ⟨⟨⟨some { g with numRows := g.numRows + n }⟩, ?_, rfl, rfl⟩,
    ⟨⟨some { g with numCols := g.numCols + n }⟩, ?_, rfl, rfl⟩,
    ?_, ?_, ?_, ?_, ?_, ?_, ?_, ?_, ?_, ?_, ?_⟩
  · simp [Prob.AddRows, glp_add_rows, hn]
  · simp [Prob.AddCols, glp_add_cols, hn]
  · intro s q h
    simp [Prob.SetProbName] at h
    subst h; exact ⟨rfl, rfl⟩
  · intro s q h
    simp [Prob.SetObjName] at h
    subst h; exact ⟨rfl, rfl⟩
  · intro d q h
    simp [Prob.SetObjDir] at h
    subst h; exact ⟨rfl, rfl⟩
  · intro i s q h
    by_cases hin : 1 ≤ i ∧ i ≤ g.numRows <;>
      simp [Prob.SetRowName, glp_set_row_name, hin] at h
    subst h; exact ⟨rfl, rfl⟩
  · intro j s q h
    by_cases hin : 1 ≤ j ∧ j ≤ g.numCols <;>
      simp [Prob.SetColName, glp_set_col_name, hin] at h
    subst h; exact ⟨rfl, rfl⟩
  · intro i b lb ub q h
    simp [Prob.SetRowBnds] at h
    subst h; exact ⟨rfl, rfl⟩
  · intro j b lb ub q h
    simp [Prob.SetColBnds] at h
    subst h; exact ⟨rfl, rfl⟩
  · intro j c q h
    simp [Prob.SetObjCoef] at h
    subst h; exact ⟨rfl, rfl⟩
  · intro i ind val q h
    by_cases hl : ind.length = val.length <;> simp [Prob.SetMatRow, hl] at h
    subst h; exact ⟨rfl, rfl⟩
  · intro j ind val q h
    by_cases hl : ind.length = val.length <;> simp [Prob.SetMatCol, hl] at h
    subst h; exact ⟨rfl, rfl⟩
  · intro ia ja ar q h
    by_cases h1 : ia.length = ja.length
    · by_cases h2 : ia.length = ar.length
      · simp [Prob.LoadMatrix, h1, h2, h1.symm.trans h2] at h
        subst h; exact ⟨rfl, rfl⟩
      · rw [h1] at h2
        simp [Prob.LoadMatrix, h1, h2] at h
    · simp [Prob.LoadMatrix, h1] at h

/-- Witness for C5: adding 11 rows to the fresh problem, as the
repository's `TestSetGetNumRows` does. -/
theorem c5_witness :
    (0 : Int) ≤ 11 ∧
    (∃ q : Prob, Prob.AddRows ⟨some glp_create_prob⟩ 11 = .ok (glp_create_prob.numRows + 1, q) ∧
      q.NumRows = .ok (glp_create_prob.numRows + 11) ∧ q.NumCols = .ok glp_create_prob.numCols) :=
  ⟨by decide, (c5_add_counts glp_create_prob 11 (by decide)).1⟩

/-- C6: on a live problem, `Copy false` yields a new problem whose
problem, objective, row and column names are all empty, `Copy true` one
whose names equal the original's; in both cases row/column counts,
bounds, objective direction and coefficients and matrix entries equal
the original's; and — the embedding being state-passing with no
aliasing — mutating the copy leaves the original value untouched. -/
theorem c6_copy :
    ∀ g : GlpProb,
      (∀ q, Prob.Copy ⟨some g⟩ false = .ok q →
        q.ProbName = .ok "" ∧ q.ObjName = .ok "" ∧
        (∀ i, 1 ≤ i → i ≤ g.numRows → q.RowName i = .ok "") ∧
        (∀ j, 1 ≤ j → j ≤ g.numCols → q.ColName j = .ok "")) ∧
      (∀ q, Prob.Copy ⟨some g⟩ true = .ok q →
        q.ProbName = .ok g.probName ∧ q.ObjName = .ok g.objName ∧
        (∀ i, 1 ≤ i → i ≤ g.numRows → q.RowName i = .ok (g.rowNames i)) ∧
        (∀ j, 1 ≤ j → j ≤ g.numCols → q.ColName j = .ok (g.colNames j))) ∧
      (∀ b q gq, Prob.Copy ⟨some g⟩ b = .ok q → q.p = some gq →
        gq.numRows = g.numRows ∧ gq.numCols = g.numCols ∧
        gq.rowBnds = g.rowBnds ∧ gq.colBnds = g.colBnds ∧
        gq.objCoefs = g.objCoefs ∧ gq.objDir = g.objDir ∧
        gq.entries = g.entries) ∧
      (∀ b q, Prob.Copy ⟨some g⟩ b = .ok q →
        ∀ n k q2, q.AddRows n = .ok (k, q2) →
          (⟨some g⟩ : Prob).NumRows = .ok g.numRows ∧
          (⟨some g⟩ : Prob).MatRow = (Prob.MatRow ⟨some g⟩)) := by
  intro g
  refine ⟨?_, ?_, ?_, ?_⟩
  · intro q h
    simp [Prob.Copy] at h
    subst h
    refine ⟨rfl, rfl, fun i hi1 hi2 => ?_, fun j hj1 hj2 => ?_⟩
    · simp [Prob.RowName, glp_get_row_name, glp_copy_prob, glp_create_prob, hi1, hi2]
    · simp [Prob.ColName, glp_get_col_name, glp_copy_prob, glp_create_prob, hj1, hj2]
  · intro q h
    simp [Prob.Copy] at h
    subst h
    refine ⟨rfl, rfl, fun i hi1 hi2 => ?_, fun j hj1 hj2 => ?_⟩
    · simp [Prob.RowName, glp_get_row_name, glp_copy_prob, hi1, hi2]
    · simp [Prob.ColName, glp_get_col_name, glp_copy_prob, hj1, hj2]
  · intro b q gq h hq
    simp [Prob.Copy] at h
    subst h
    simp [glp_copy_prob] at hq
    subst hq
    exact ⟨rfl, rfl, rfl, rfl, rfl, rfl, rfl⟩
  · intro b q h n k q2 h2
    exact ⟨rfl, rfl⟩

/-- Witness for C6: copying a named 4-row, 3-column problem without
names reads back an empty problem name, as in the repository's
`TestCopy`. -/
theorem c6_witness :
    (⟨some (glp_copy_prob glp_create_prob
      { glp_create_prob with probName := "problem", numRows := 4, numCols := 3 } false)⟩ :
        Prob).ProbName = .ok "" :=
  ((c6_copy { glp_create_prob with probName := "problem", numRows := 4, numCols := 3 }).1
    ⟨some (glp_copy_prob glp_create_prob
      { glp_create_prob with probName := "problem", numRows := 4, numCols := 3 } false)⟩ rfl).1

/-- C7: on a live problem, a getter immediately after the matching
setter returns exactly the name that was set (`ProbName`/`SetProbName`,
`ObjName`/`SetObjName`, and `RowName`/`SetRowName`,
`ColName`/`SetColName` for in-range indices); before any set, each
getter returns the empty string. -/
theorem c7_name_roundtrip :
    ∀ (g : GlpProb) (s : String),
      (∀ q, Prob.SetProbName ⟨some g⟩ s = .ok q → q.ProbName = .ok s) ∧
      (∀ q, Prob.SetObjName ⟨some g⟩ s = .ok q → q.ObjName = .ok s) ∧
      (∀ i q, 1 ≤ i → i ≤ g.numRows → Prob.SetRowName ⟨some g⟩ i s = .ok q →
        q.RowName i = .ok s) ∧
      (∀ j q, 1 ≤ j → j ≤ g.numCols → Prob.SetColName ⟨some g⟩ j s = .ok q →
        q.ColName j = .ok s) ∧
      New.ProbName = .ok "" ∧ New.ObjName = .ok "" ∧
      (∀ n k q, Prob.AddRows New n = .ok (k, q) →
        ∀ i, 1 ≤ i → i ≤ n → q.RowName i = .ok "") ∧
      (∀ n k q, Prob.AddCols New n = .ok (k, q) →
        ∀ j, 1 ≤ j → j ≤ n → q.ColName j = .ok "") := by
  intro g s
  refine ⟨?_, ?_, ?_, ?_, rfl, rfl, ?_, ?_⟩
  · intro q h
    simp [Prob.SetProbName] at h
    subst h; rfl
  · intro q h
    simp [Prob.SetObjName] at h
    subst h; rfl
  · intro i q hi1 hi2 h
    have hin : 1 ≤ i ∧ i ≤ g.numRows := ⟨hi1, hi2⟩
    simp [Prob.SetRowName, glp_set_row_name, hin] at h
    subst h
    simp [Prob.RowName, glp_get_row_name, hi1, hi2]
  · intro j q hj1 hj2 h
    have hjn : 1 ≤ j ∧ j ≤ g.numCols := ⟨hj1, hj2⟩
    simp [Prob.SetColName, glp_set_col_name, hjn] at h
    subst h
    simp [Prob.ColName, glp_get_col_name, hj1, hj2]
  · intro n k q h i hi1 hi2
    by_cases hn : 0 ≤ n
    · simp [Prob.AddRows, glp_add_rows, New, hn] at h
      obtain ⟨hk, hq⟩ := h
      subst hq
      simp [Prob.RowName, glp_get_row_name, glp_create_prob, hi1, hi2]
    · simp [Prob.AddRows, glp_add_rows, New, hn] at h
  · intro n k q h j hj1 hj2
    by_cases hn : 0 ≤ n
    · simp [Prob.AddCols, glp_add_cols, New, hn] at h
      obtain ⟨hk, hq⟩ := h
      subst hq
      simp [Prob.ColName, glp_get_col_name, glp_create_prob, hj1, hj2]
    · simp [Prob.AddCols, glp_add_cols, New, hn] at h

/-- Witness for C7 at the repository's `TestSetGetProbName` input. -/
theorem c7_witness :
    Prob.ProbName ⟨some { glp_create_prob with probName := "problem" }⟩ = .ok "problem" :=
  (c7_name_roundtrip glp_create_prob "problem").1
    ⟨some { glp_create_prob with probName := "problem" }⟩ rfl

/-- C8: on a live problem, the row/column name setters and getters fail
with the `IndexOutOfRange` fault exactly when the index is outside
`[1, NumRows]` (resp. `[1, NumCols]`), and succeed for every index
inside the range. -/
theorem c8_name_index_range :
    ∀ (g : GlpProb) (i : Int) (s : String),
      (Prob.SetRowName ⟨some g⟩ i s = .error (Fail.fault "IndexOutOfRange") ↔
        ¬(1 ≤ i ∧ i ≤ g.numRows)) ∧
      (1 ≤ i ∧ i ≤ g.numRows → ∃ q, Prob.SetRowName ⟨some g⟩ i s = .ok q) ∧
      (Prob.RowName ⟨some g⟩ i = .error (Fail.fault "IndexOutOfRange") ↔
        ¬(1 ≤ i ∧ i ≤ g.numRows)) ∧
      (1 ≤ i ∧ i ≤ g.numRows → ∃ nm, Prob.RowName ⟨some g⟩ i = .ok nm) ∧
      (Prob.SetColName ⟨some g⟩ i s = .error (Fail.fault "IndexOutOfRange") ↔
        ¬(1 ≤ i ∧ i ≤ g.numCols)) ∧
      (1 ≤ i ∧ i ≤ g.numCols → ∃ q, Prob.SetColName ⟨some g⟩ i s = .ok q) ∧
      (Prob.ColName ⟨some g⟩ i = .error (Fail.fault "IndexOutOfRange") ↔
        ¬(1 ≤ i ∧ i ≤ g.numCols)) ∧
      (1 ≤ i ∧ i ≤ g.numCols → ∃ nm, Prob.ColName ⟨some g⟩ i = .ok nm) := by
  intro g i s
  refine ⟨?_, ?_, ?_, ?_, ?_, ?_, ?_, ?_⟩
  · by_cases h : 1 ≤ i ∧ i ≤ g.numRows <;> simp [Prob.SetRowName, glp_set_row_name, h]
  · intro h
    exact ⟨⟨some { g with rowNames := fun k => if k = i then s else g.rowNames k }⟩,
      by simp [Prob.SetRowName, glp_set_row_name, h]⟩
  · by_cases h : 1 ≤ i ∧ i ≤ g.numRows <;> simp [Prob.RowName, glp_get_row_name, h]
  · intro h
    exact ⟨g.rowNames i, by simp [Prob.RowName, glp_get_row_name, h]⟩
  · by_cases h : 1 ≤ i ∧ i ≤ g.numCols <;> simp [Prob.SetColName, glp_set_col_name, h]
  · intro h
    exact ⟨⟨some { g with colNames := fun k => if k = i then s else g.colNames k }⟩,
      by simp [Prob.SetColName, glp_set_col_name, h]⟩
  · by_cases h : 1 ≤ i ∧ i ≤ g.numCols <;> simp [Prob.ColName, glp_get_col_name, h]
  · intro h
    exact ⟨g.colNames i, by simp [Prob.ColName, glp_get_col_name, h]⟩

/-- Witness for C8: on a 1-row problem, naming row 2 faults with
`IndexOutOfRange` while naming row 1 succeeds. -/
theorem c8_witness :
    Prob.SetRowName ⟨some { glp_create_prob with numRows := 1 }⟩ 2 "a constraint" =
      .error (Fail.fault "IndexOutOfRange") ∧
    (∃ q, Prob.SetRowName ⟨some { glp_create_prob with numRows := 1 }⟩ 1 "a constraint" = .ok q) :=
  ⟨(c8_name_index_range { glp_create_prob with numRows := 1 } 2 "a constraint").1.mpr
      (by decide),
    (c8_name_index_range { glp_create_prob with numRows := 1 } 1 "a constraint").2.1
      (by decide)⟩

theorem counts_goal_of_eq {g gq : GlpProb} (hr : gq.numRows = g.numRows)
    (hc : gq.numCols = g.numCols) (b : Bool) :
    (g.numRows ≤ gq.numRows ∧ g.numCols ≤ gq.numCols) ∧
    (b = false → gq.numRows = g.numRows ∧ gq.numCols = g.numCols) ∧
    (∀ k, 1 ≤ k → k ≤ g.numRows → 1 ≤ k ∧ k ≤ gq.numRows) ∧
    (∀ k, 1 ≤ k → k ≤ g.numCols → 1 ≤ k ∧ k ≤ gq.numCols) :=
  ⟨⟨hr.ge, hc.ge⟩, fun _ => ⟨hr, hc⟩,
    fun k h1 h2 => ⟨h1, by omega⟩, fun k h1 h2 => ⟨h1, by omega⟩⟩

theorem counts_goal_of_le {g gq : GlpProb} (hr : g.numRows ≤ gq.numRows)
    (hc : g.numCols ≤ gq.numCols) :
    (g.numRows ≤ gq.numRows ∧ g.numCols ≤ gq.numCols) ∧
    (true = false → gq.numRows = g.numRows ∧ gq.numCols = g.numCols) ∧
    (∀ k, 1 ≤ k → k ≤ g.numRows → 1 ≤ k ∧ k ≤ gq.numRows) ∧
    (∀ k, 1 ≤ k → k ≤ g.numCols → 1 ≤ k ∧ k ≤ gq.numCols) :=
  ⟨⟨hr, hc⟩, fun hb => Bool.noConfusion hb,
    fun k h1 h2 => ⟨h1, by omega⟩, fun k h1 h2 => ⟨h1, by omega⟩⟩

/-- C9: across every mutating operation other than `Delete` and `Erase`,
`NumRows` and `NumCols` never decrease; every operation that is not
`AddRows`/`AddCols` leaves them exactly unchanged; and every previously
valid row/column index remains valid after the step. -/
theorem c9_monotone_growth :
    ∀ (p q : Prob) (b : Bool) (g gq : GlpProb),
      StepsTo p q b → p.p = some g → q.p = some gq →
      (g.numRows ≤ gq.numRows ∧ g.numCols ≤ gq.numCols) ∧
      (b = false → gq.numRows = g.numRows ∧ gq.numCols = g.numCols) ∧
      (∀ k, 1 ≤ k → k ≤ g.numRows → 1 ≤ k ∧ k ≤ gq.numRows) ∧
      (∀ k, 1 ≤ k → k ≤ g.numCols → 1 ≤ k ∧ k ≤ gq.numCols) := by
  intro p q b g gq hstep hp hq
  have hp' : p = ⟨some g⟩ := by cases p; cases hp; rfl
  subst hp'
  have hq' : q = ⟨some gq⟩ := by cases q; cases hq; rfl
  subst hq'
  cases hstep with
  | setProbName s h =>
    simp [Prob.SetProbName] at h
    subst h
    exact counts_goal_of_eq rfl rfl false
  | setObjName s h =>
    simp [Prob.SetObjName] at h
    subst h
    exact counts_goal_of_eq rfl rfl false
  | setObjDir d h =>
    simp [Prob.SetObjDir] at h
    subst h
    exact counts_goal_of_eq rfl rfl false
  | addRows n k h =>
    by_cases hn : 0 ≤ n
    · simp [Prob.AddRows, glp_add_rows, hn] at h
      obtain ⟨hk, hx⟩ := h
      subst hx
      exact counts_goal_of_le (by simp; omega) (by simp)
    · simp [Prob.AddRows, glp_add_rows, hn] at h
  | addCols n k h =>
    by_cases hn : 0 ≤ n
    · simp [Prob.AddCols, glp_add_cols, hn] at h
      obtain ⟨hk, hx⟩ := h
      subst hx
      exact counts_goal_of_le (by simp) (by simp; omega)
    · simp [Prob.AddCols, glp_add_cols, hn] at h
  | setRowName i s h =>
    by_cases hin : 1 ≤ i ∧ i ≤ g.numRows <;>
      simp [Prob.SetRowName, glp_set_row_name, hin] at h
    subst h
    exact counts_goal_of_eq rfl rfl false
  | setColName j s h =>
    by_cases hin : 1 ≤ j ∧ j ≤ g.numCols <;>
      simp [Prob.SetColName, glp_set_col_name, hin] at h
    subst h
    exact counts_goal_of_eq rfl rfl false
  | setRowBnds i bt lb ub h =>
    simp [Prob.SetRowBnds] at h
    subst h
    exact counts_goal_of_eq rfl rfl false
  | setColBnds j bt lb ub h =>
    simp [Prob.SetColBnds] at h
    subst h
    exact counts_goal_of_eq rfl rfl false
  | setObjCoef j c h =>
    simp [Prob.SetObjCoef] at h
    subst h
    exact counts_goal_of_eq rfl rfl false
  | setMatRow i ind val h =>
    by_cases hl : ind.length = val.length <;> simp [Prob.SetMatRow, hl] at h
    subst h
    exact counts_goal_of_eq rfl rfl false
  | setMatCol j ind val h =>
    by_cases hl : ind.length = val.length <;> simp [Prob.SetMatCol, hl] at h
    subst h
    exact counts_goal_of_eq rfl rfl false
  | loadMatrix ia ja ar h =>
    by_cases h1 : ia.length = ja.length
    · by_cases h2 : ia.length = ar.length
      · simp [Prob.LoadMatrix, h1, h2, h1.symm.trans h2] at h
        subst h
        exact counts_goal_of_eq rfl rfl false
      · rw [h1] at h2
        simp [Prob.LoadMatrix, h1, h2] at h
    · simp [Prob.LoadMatrix, h1] at h
  | simplex eng parm e h =>
    cases parm with
    | none =>
      by_cases h0 : (eng g none).1 = 0 <;>
        simp [Prob.Simplex, h0, OptError.mk.injEq] at h <;>
        · obtain ⟨he, hx⟩ := h
          subst hx
          exact counts_goal_of_eq rfl rfl false
    | some s0 =>
      by_cases h0 : (eng g (some s0)).1 = 0 <;>
        simp [Prob.Simplex, h0, OptError.mk.injEq] at h <;>
        · obtain ⟨he, hx⟩ := h
          subst hx
          exact counts_goal_of_eq rfl rfl false
  | exactSolve eng parm e h =>
    cases parm with
    | none =>
      by_cases h0 : (eng g none).1 = 0 <;>
        simp [Prob.Exact, h0, OptError.mk.injEq] at h <;>
        · obtain ⟨he, hx⟩ := h
          subst hx
          exact counts_goal_of_eq rfl rfl false
    | some s0 =>
      by_cases h0 : (eng g (some s0)).1 = 0 <;>
        simp [Prob.Exact, h0, OptError.mk.injEq] at h <;>
        · obtain ⟨he, hx⟩ := h
          subst hx
          exact counts_goal_of_eq rfl rfl false

/-- Witness for C9 at a concrete `SetProbName` step on the fresh
problem. -/
theorem c9_witness :
    (glp_create_prob.numRows ≤
        ({ glp_create_prob with probName := "sample" } : GlpProb).numRows ∧
      glp_create_prob.numCols ≤
        ({ glp_create_prob with probName := "sample" } : GlpProb).numCols) ∧
    (false = false →
      ({ glp_create_prob with probName := "sample" } : GlpProb).numRows =
          glp_create_prob.numRows ∧
        ({ glp_create_prob with probName := "sample" } : GlpProb).numCols =
          glp_create_prob.numCols) ∧
    (∀ k, 1 ≤ k → k ≤ glp_create_prob.numRows →
      1 ≤ k ∧ k ≤ ({ glp_create_prob with probName := "sample" } : GlpProb).numRows) ∧
    (∀ k, 1 ≤ k → k ≤ glp_create_prob.numCols →
      1 ≤ k ∧ k ≤ ({ glp_create_prob with probName := "sample" } : GlpProb).numCols) :=
  c9_monotone_growth ⟨some glp_create_prob⟩
    ⟨some { glp_create_prob with probName := "sample" }⟩ false glp_create_prob
    { glp_create_prob with probName := "sample" }
    (StepsTo.setProbName _ _ "sample" rfl) rfl rfl

/-- C10: `MplFreeWksp` is idempotent and nulls the workspace handle, and
— unlike every `Prob` method — `MplReadModel`, `MplGenerate`,
`MplBuildProb` and `MplReadData` perform no liveness check: after
`MplFreeWksp` each of them passes the nil workspace handle straight to
the external engine instead of failing deterministically. -/
theorem c10_mpl_no_liveness_check :
    (∀ t : Tran, (t.MplFreeWksp).MplFreeWksp = t.MplFreeWksp ∧ (t.MplFreeWksp).t = none) ∧
    (∀ (t : Tran) (eng : Option GlpTran → String → Int → Int) (f : String) (sk : Bool),
      (t.MplFreeWksp).MplReadModel eng f sk = eng none f (if sk = true then 1 else 0)) ∧
    (∀ (t : Tran) (eng : Option GlpTran → Int),
      (t.MplFreeWksp).MplGenerate eng = eng none) ∧
    (∀ (t : Tran) (eng : Option GlpTran → Option GlpProb → Option GlpProb) (p : Prob),
      (t.MplFreeWksp).MplBuildProb eng p = ⟨eng none p.p⟩) ∧
    (∀ (t : Tran) (eng : Option GlpTran → String → Int) (f : String),
      (t.MplFreeWksp).MplReadData eng f = eng none f) := by
  refine ⟨fun t => ?_, fun t eng f sk => ?_, fun t eng => ?_, fun t eng p => ?_,
    fun t eng f => ?_⟩
  · obtain ⟨o⟩ := t
    cases o <;> exact ⟨rfl, rfl⟩
  · obtain ⟨o⟩ := t
    cases o <;> rfl
  · obtain ⟨o⟩ := t
    cases o <;> rfl
  · obtain ⟨o⟩ := t
    cases o <;> rfl
  · obtain ⟨o⟩ := t
    cases o <;> rfl

end GoGlpk
